import Mathlib

/-!
Shallow embedding of the session-authentication, CSRF, and role-based
multi-tenant authorization core of the report-card backend.

Time is modelled as a `Nat` (minutes); every operation that reads the clock
takes `now` as an explicit argument.  The database tables are modelled as
lists of rows; `query(...).first()` is `List.find?`, `delete()` on a queried
row removes the first match, and bulk `delete()` filters.
-/

namespace ReportCard

/-- Model of `settings.SESSION_EXPIRE_MINUTES` (default 30) from
`app/core/config.py`. -/
def SESSION_EXPIRE_MINUTES : Nat := 30

/-- Model of the `Session` ORM row (`app/models/session.py`): token primary
key, owning user, expiry, CSRF token, and optional client metadata. -/
structure UserSession where
  id : String
  user_id : Nat
  expires_at : Nat
  csrf_token : String
  user_agent : Option String
  ip_address : Option String
  deriving DecidableEq, Repr

/-- Model of `UserRole` (`app/models/user.py`): a closed enum. -/
inductive UserRole where
  | FORM_TEACHER
  | YEAR_HEAD
  | ADMIN
  deriving DecidableEq, Repr

/-- Model of the `User` ORM row, restricted to the fields the authorization
logic reads. -/
structure User where
  id : Nat
  role : UserRole
  school_id : Nat
  deriving DecidableEq, Repr

/-- Model of `is_session_expired` (`app/core/security.py`):
`datetime.now(timezone.utc) > expires_at`. -/
def is_session_expired (expires_at now : Nat) : Bool :=
  now > expires_at

/-- Model of `AuthService.delete_session`: query the first row with the given
id; if present delete it and return true, else return false.  Returns the
updated table together with the boolean. -/
def delete_session (db : List UserSession) (session_id : String) :
    List UserSession × Bool :=
  match db.find? (fun s => s.id == session_id) with
  | some _ => (db.eraseP (fun s => s.id == session_id), true)
  | none => (db, false)

/-- Model of `AuthService.get_session`: first row with the id; `none` when
absent; when expired, lazily delete the row and return `none`.  Returns the
result together with the (possibly updated) table. -/
def get_session (db : List UserSession) (now : Nat) (session_id : String) :
    Option UserSession × List UserSession :=
  match db.find? (fun s => s.id == session_id) with
  | none => (none, db)
  | some s =>
    if is_session_expired s.expires_at now then
      (none, (delete_session db session_id).1)
    else
      (some s, db)

/-- Model of `AuthService.get_session_with_user`: like `get_session` but joins
the user table; an orphaned session (user gone) is deleted and `none` is
returned. -/
def get_session_with_user (db : List UserSession) (users : List User)
    (now : Nat) (session_id : String) :
    Option (UserSession × User) × List UserSession :=
  match db.find? (fun s => s.id == session_id) with
  | none => (none, db)
  | some s =>
    if is_session_expired s.expires_at now then
      (none, (delete_session db session_id).1)
    else
      match users.find? (fun u => u.id == s.user_id) with
      | none => (none, (delete_session db session_id).1)
      | some u => (some (s, u), db)

/-- Model of `AuthService.delete_user_sessions`: bulk delete of every session
of the user; returns the rowcount and the updated table. -/
def delete_user_sessions (db : List UserSession) (user_id : Nat) :
    Nat × List UserSession :=
  ((db.filter (fun s => s.user_id == user_id)).length,
   db.filter (fun s => !(s.user_id == user_id)))

/-- Model of `AuthService.cleanup_expired_sessions`: bulk delete of every
session with `expires_at < now`; returns the rowcount and the updated
table. -/
def cleanup_expired_sessions (db : List UserSession) (now : Nat) :
    Nat × List UserSession :=
  ((db.filter (fun s => decide (s.expires_at < now))).length,
   db.filter (fun s => !(decide (s.expires_at < now))))

/-- Model of `AuthService.extend_session`: resolve through `get_session`
(hence with its lazy-cleanup side effect); on a valid session set
`expires_at := now + SESSION_EXPIRE_MINUTES` and write the row back. -/
def extend_session (db : List UserSession) (now : Nat) (session_id : String) :
    Option UserSession × List UserSession :=
  match get_session db now session_id with
  | (none, db1) => (none, db1)
  | (some s, db1) =>
    let s1 := { s with expires_at := now + SESSION_EXPIRE_MINUTES }
    (some s1, db1.map (fun t => if t.id == s.id then s1 else t))

/-- Model of `AuthService.validate_csrf_token`: resolve through `get_session`
(expired or unknown gives `False`), then compare the stored token. -/
def validate_csrf_token (db : List UserSession) (now : Nat)
    (session_id : String) (csrf_token : String) : Bool × List UserSession :=
  match get_session db now session_id with
  | (none, db1) => (false, db1)
  | (some s, db1) => (s.csrf_token == csrf_token, db1)

/-- Model of the `Student` ORM row (`app/models/student.py`), restricted to
the fields the authorization logic reads (`class_id` is non-nullable). -/
structure Student where
  id : Nat
  school_id : Nat
  class_id : Nat
  deriving DecidableEq, Repr

/-- Model of the `TeacherClassAssignment` ORM row
(`app/models/teacher_assignment.py`). -/
structure TeacherClassAssignment where
  teacher_id : Nat
  class_id : Nat
  deriving DecidableEq, Repr

/-- Model of the `assigned_class_ids` subquery used by `StudentService`:
class ids of the assignment rows of the given teacher. -/
def assigned_class_ids (assignments : List TeacherClassAssignment)
    (teacher_id : Nat) : List Nat :=
  (assignments.filter (fun a => a.teacher_id == teacher_id)).map
    (fun a => a.class_id)

/-- Model of `StudentService.get_students_for_user`: school isolation first,
then role narrowing (the Python `else` branch for an unknown role is
unreachable for the closed `UserRole` enum). -/
def get_students_for_user (students : List Student)
    (assignments : List TeacherClassAssignment) (user : User) :
    List Student :=
  let base := students.filter (fun s => s.school_id == user.school_id)
  match user.role with
  | .FORM_TEACHER =>
    base.filter (fun s =>
      (assigned_class_ids assignments user.id).contains s.class_id)
  | .YEAR_HEAD => base
  | .ADMIN => base

/-- Model of `StudentService.get_student_by_id`: lookup by id, then school
isolation, then role-based access (form teachers need an assignment row for
the student's class). -/
def get_student_by_id (students : List Student)
    (assignments : List TeacherClassAssignment) (student_id : Nat)
    (user : User) : Option Student :=
  match students.find? (fun s => s.id == student_id) with
  | none => none
  | some st =>
    if st.school_id != user.school_id then none
    else
      match user.role with
      | .FORM_TEACHER =>
        if assignments.any (fun a =>
            a.teacher_id == user.id && a.class_id == st.class_id) then
          some st
        else none
      | .YEAR_HEAD => some st
      | .ADMIN => some st

/-- Model of `StudentService.can_access_student`: defined through
`get_student_by_id`. -/
def can_access_student (students : List Student)
    (assignments : List TeacherClassAssignment) (student_id : Nat)
    (user : User) : Bool :=
  (get_student_by_id students assignments student_id user).isSome

/-- Model of `StudentService.get_accessible_student_ids`. -/
def get_accessible_student_ids (students : List Student)
    (assignments : List TeacherClassAssignment) (user : User) : List Nat :=
  match user.role with
  | .FORM_TEACHER =>
    (students.filter (fun s =>
      s.school_id == user.school_id &&
        (assigned_class_ids assignments user.id).contains s.class_id)).map
      (fun s => s.id)
  | .YEAR_HEAD =>
    (students.filter (fun s => s.school_id == user.school_id)).map
      (fun s => s.id)
  | .ADMIN =>
    (students.filter (fun s => s.school_id == user.school_id)).map
      (fun s => s.id)

/-- Model of `GradeService.can_edit_student_grades`: student must exist in the
user's school; form teachers additionally need an assignment row for the
student's class. -/
def can_edit_student_grades (students : List Student)
    (assignments : List TeacherClassAssignment) (user : User)
    (student_id : Nat) : Bool :=
  match students.find? (fun s => s.id == student_id) with
  | none => false
  | some st =>
    if st.school_id != user.school_id then false
    else
      match user.role with
      | .FORM_TEACHER =>
        assignments.any (fun a =>
          a.teacher_id == user.id && a.class_id == st.class_id)
      | .YEAR_HEAD => true
      | .ADMIN => true

/-- Model of the `Term` ORM row, restricted to the fields
`GradeService.update_student_grades` reads. -/
structure Term where
  id : Nat
  school_id : Nat
  deriving DecidableEq, Repr

/-- Model of the `Grade` ORM row, restricted to the fields the update path
touches; `score` (a `Decimal` checked to lie in `[0, 100]`) is an `Int`. -/
structure Grade where
  student_id : Nat
  term_id : Nat
  subject_id : Nat
  score : Int
  modified_by_id : Nat
  deriving DecidableEq, Repr

/-- Outcome of `GradeService.update_student_grades`, indexed by the `error`
string of the returned dictionary. -/
inductive UpdateGradesResult where
  | permissionDenied
  | studentNotFound
  | termNotFound
  | invalidScore (subject_id : Nat) (score : Int)
  | success (grades : List Grade) (updated_count : Nat)
  deriving DecidableEq, Repr

/-- Update the first row satisfying the predicate (the ORM mutates the row
returned by `.first()`). -/
def update_first (p : Grade → Bool) (f : Grade → Grade) :
    List Grade → List Grade
  | [] => []
  | g :: gs => if p g then f g :: gs else g :: update_first p f gs

/-- The per-subject upsert loop of `GradeService.update_student_grades`:
validate the score, then update the existing (student, term, subject) row in
place or append a new one.  An invalid score aborts before the commit, so the
table is left as it was. -/
def update_grades_loop (student_id term_id modifier : Nat) :
    List (Nat × Int) → List Grade → Nat → UpdateGradesResult
  | [], grades, count => .success grades count
  | (subject_id, score) :: rest, grades, count =>
    if score < 0 || 100 < score then .invalidScore subject_id score
    else
      let hit := grades.any (fun g =>
        g.student_id == student_id && g.term_id == term_id &&
          g.subject_id == subject_id)
      let grades1 :=
        if hit then
          update_first
            (fun g => g.student_id == student_id && g.term_id == term_id &&
              g.subject_id == subject_id)
            (fun g => { g with score := score, modified_by_id := modifier })
            grades
        else
          grades ++ [(⟨student_id, term_id, subject_id, score, modifier⟩ : Grade)]
      update_grades_loop student_id term_id modifier rest grades1 (count + 1)

/-- Model of `GradeService.update_student_grades`: permission check, then
student and term existence and school checks, then the upsert loop.  On any
failure the grade table is unchanged (no commit happened). -/
def update_student_grades (students : List Student)
    (assignments : List TeacherClassAssignment) (terms : List Term)
    (grades : List Grade) (student_id term_id : Nat)
    (grades_data : List (Nat × Int)) (user : User) : UpdateGradesResult :=
  if !(can_edit_student_grades students assignments user student_id) then
    .permissionDenied
  else
    match students.find? (fun s => s.id == student_id) with
    | none => .studentNotFound
    | some st =>
      if st.school_id != user.school_id then .studentNotFound
      else
        match terms.find? (fun t => t.id == term_id) with
        | none => .termNotFound
        | some t =>
          if t.school_id != user.school_id then .termNotFound
          else update_grades_loop student_id term_id user.id grades_data
            grades 0

/-- Python truthiness of an optional string (`None` and `""` are falsy), as
used by the middleware's `or` chains and `if not ...` tests. -/
def truthy : Option String → Bool
  | none => false
  | some s => !(s == "")

/-- Outcome of `CSRFMiddleware._validate_csrf_token`
(`app/middleware/csrf.py`), indexed by the raised `HTTPException` (status,
detail) or success. -/
inductive CsrfOutcome where
  | sessionRequired
  | tokenRequired
  | invalidToken
  | refererRequired
  | invalidReferer
  | passed
  deriving DecidableEq, Repr

/-- Model of `CSRFMiddleware._validate_referer`, with `urlparse` abstracted:
`referer_host` is the hostname already extracted from the Referer header
(`none` when the header is absent). -/
def validate_referer (referer_host : Option String)
    (allowed_hosts : List String) : CsrfOutcome :=
  match referer_host with
  | none => .refererRequired
  | some h => if allowed_hosts.contains h then .passed else .invalidReferer

/-- Model of `CSRFMiddleware._requires_csrf_protection`: protected method,
non-exempt path (prefix match), and a truthy session cookie. -/
def requires_csrf_protection (method path : String)
    (protected_methods exempt_paths : List String)
    (session_cookie : Option String) : Bool :=
  if !(protected_methods.contains method) then false
  else if exempt_paths.any (fun p => p.isPrefixOf path) then false
  else truthy session_cookie

/-- Model of `CSRFMiddleware._validate_csrf_token`: require a session cookie;
pick the candidate token as header `or` form `or` cookie (Python `or`, so an
empty string falls through); reject a missing token, then a token that fails
`AuthService.validate_csrf_token`, then (if enabled) the referer check. -/
def validate_csrf_middleware (db : List UserSession) (now : Nat)
    (session_cookie header_token form_token cookie_token : Option String)
    (require_referer_check : Bool) (referer_host : Option String)
    (allowed_hosts : List String) : CsrfOutcome :=
  if !(truthy session_cookie) then .sessionRequired
  else
    let sid := session_cookie.getD ""
    let tok := if truthy header_token then header_token
      else if truthy form_token then form_token
      else cookie_token
    if !(truthy tok) then .tokenRequired
    else if (validate_csrf_token db now sid (tok.getD "")).1 then
      if require_referer_check then validate_referer referer_host allowed_hosts
      else .passed
    else .invalidToken

/-- Model of an HTTP response as the endpoints produce it: either a success
payload (abstracted to a tag string) or an `HTTPException` with status class
and detail. -/
inductive HttpResponse where
  | ok (body : String)
  | notFound (detail : String)
  | forbidden (detail : String)
  | badRequest (detail : String)
  deriving DecidableEq, Repr

/-- Model of the `GET /students/\x7bstudent_id\x7d` endpoint
(`app/api/v1/endpoints/students.py`): `None` from the service becomes
404 "Student not found or access denied". -/
def get_student_endpoint (students : List Student)
    (assignments : List TeacherClassAssignment) (student_id : Nat)
    (user : User) : HttpResponse :=
  match get_student_by_id students assignments student_id user with
  | none => .notFound "Student not found or access denied"
  | some st => .ok ("student " ++ toString st.id)

/-- Model of the `PUT /grades/students/.../terms/...` endpoint
(`app/api/v1/endpoints/grades.py`): the service's error string is routed by
substring — "Permission denied" to 403, strings containing "not found" to
404, anything else to 400. -/
def update_student_grades_endpoint (students : List Student)
    (assignments : List TeacherClassAssignment) (terms : List Term)
    (grades : List Grade) (student_id term_id : Nat)
    (grades_data : List (Nat × Int)) (user : User) : HttpResponse :=
  match update_student_grades students assignments terms grades student_id
    term_id grades_data user with
  | .permissionDenied => .forbidden "Permission denied"
  | .studentNotFound => .notFound "Student not found"
  | .termNotFound => .notFound "Term not found"
  | .invalidScore _ _ => .badRequest "Invalid score"
  | .success _ n => .ok ("updated " ++ toString n)

/-! ### Helper lemmas -/

/-- The two faces of the grade/student authorization check compute the same
boolean: `can_edit_student_grades` replicates the lookup, school and role
checks of `get_student_by_id`. -/
theorem can_edit_eq_can_access (students : List Student)
    (assignments : List TeacherClassAssignment) (user : User) (sid : Nat) :
    can_edit_student_grades students assignments user sid =
      can_access_student students assignments sid user := by
  unfold can_edit_student_grades can_access_student get_student_by_id
  cases hf : students.find? (fun s => s.id == sid) with
  | none => simp
  | some st =>
    rcases user with ⟨uid, urole, uschool⟩
    by_cases hs : st.school_id = uschool
    · cases urole
      · cases ha : assignments.any (fun a => a.teacher_id == uid &&
          a.class_id == st.class_id)
        · simp [hs, ha]
        · simp [hs, ha]
      · simp [hs]
      · simp [hs]
    · simp [bne_iff_ne, hs]

/-! ### C1 -/

/-- C1: a resource row whose tenant (`school_id`) differs from the
principal's tenant is inaccessible regardless of role: `get_student_by_id`
returns `none`, `can_edit_student_grades` returns `false`, and the id never
appears in `get_accessible_student_ids`. -/
theorem tenant_isolation_dominates (students : List Student)
    (assignments : List TeacherClassAssignment) (user : User) (sid : Nat)
    (h : ∀ st ∈ students, st.id = sid → st.school_id ≠ user.school_id) :
    get_student_by_id students assignments sid user = none ∧
    can_edit_student_grades students assignments user sid = false ∧
    sid ∉ get_accessible_student_ids students assignments user := by
  refine ⟨?_, ?_, ?_⟩
  · unfold get_student_by_id
    cases hf : students.find? (fun s => s.id == sid) with
    | none => rfl
    | some st =>
      have hmem := List.mem_of_find?_eq_some hf
      have hid : st.id = sid := by simpa using List.find?_some hf
      have hne : (st.school_id != user.school_id) = true := by
        simpa [bne_iff_ne] using h st hmem hid
      simp [hne]
  · unfold can_edit_student_grades
    cases hf : students.find? (fun s => s.id == sid) with
    | none => rfl
    | some st =>
      have hmem := List.mem_of_find?_eq_some hf
      have hid : st.id = sid := by simpa using List.find?_some hf
      have hne : (st.school_id != user.school_id) = true := by
        simpa [bne_iff_ne] using h st hmem hid
      simp [hne]
  · intro hmem
    rcases user with ⟨uid, urole, uschool⟩
    cases urole <;>
      simp only [get_accessible_student_ids, List.mem_map,
        List.mem_filter, Bool.and_eq_true, beq_iff_eq] at hmem
    · obtain ⟨st, ⟨hst, hschool, _⟩, hid⟩ := hmem
      exact h st hst hid hschool
    · obtain ⟨st, ⟨hst, hschool⟩, hid⟩ := hmem
      exact h st hst hid hschool
    · obtain ⟨st, ⟨hst, hschool⟩, hid⟩ := hmem
      exact h st hst hid hschool

/-- C1 witness: a concrete cross-tenant resource (student of school 2, admin
principal of school 3) is invisible through all three faces of the
contract. -/
theorem tenant_isolation_dominates_witness :
    get_student_by_id [⟨1, 2, 10⟩] [] 1 ⟨5, UserRole.ADMIN, 3⟩ = none ∧
    can_edit_student_grades [⟨1, 2, 10⟩] [] ⟨5, UserRole.ADMIN, 3⟩ 1 = false ∧
    1 ∉ get_accessible_student_ids [⟨1, 2, 10⟩] [] ⟨5, UserRole.ADMIN, 3⟩ :=
  tenant_isolation_dominates [⟨1, 2, 10⟩] [] ⟨5, UserRole.ADMIN, 3⟩ 1
    (by decide)

/-! ### C2 -/

/-- C2: a session whose expiry is in the past is treated as absent by every
consulting operation even before it is swept: `get_session` and
`get_session_with_user` return `none`, and `validate_csrf_token` returns
`false` for every candidate token. -/
theorem expired_session_unusable (db : List UserSession) (users : List User)
    (now : Nat) (sid : String) (s : UserSession)
    (hfind : db.find? (fun t => t.id == sid) = some s)
    (hexp : s.expires_at < now) :
    (get_session db now sid).1 = none ∧
    (get_session_with_user db users now sid).1 = none ∧
    ∀ tok, (validate_csrf_token db now sid tok).1 = false := by
  have he : is_session_expired s.expires_at now = true := by
    simpa [is_session_expired] using hexp
  refine ⟨?_, ?_, ?_⟩
  · simp [get_session, hfind, he]
  · simp [get_session_with_user, hfind, he]
  · intro tok
    simp [validate_csrf_token, get_session, hfind, he]

/-- C2 witness: a concrete session expired at time 0, consulted at time 5. -/
theorem expired_session_unusable_witness :
    (get_session [⟨"s", 1, 0, "c", none, none⟩] 5 "s").1 = none ∧
    (get_session_with_user [⟨"s", 1, 0, "c", none, none⟩] [] 5 "s").1 =
      none ∧
    ∀ tok,
      (validate_csrf_token [⟨"s", 1, 0, "c", none, none⟩] 5 "s" tok).1 =
        false :=
  expired_session_unusable [⟨"s", 1, 0, "c", none, none⟩] [] 5 "s"
    ⟨"s", 1, 0, "c", none, none⟩ rfl (by decide)

/-! ### C4 -/

/-- C4 counterexample: (i) `extend_session` on a token naming an *expired*
session is not a no-op on the store — the lazy cleanup inside `get_session`
deletes the expired row; (ii) on a valid session whose expiry already equals
`now + SESSION_EXPIRE_MINUTES` (created at the same instant), the expiry is
rewritten to the same value, so it does not strictly increase. -/
theorem extend_session_claim_counterexample :
    ((extend_session [⟨"s", 1, 0, "c", none, none⟩] 5 "s").1 = none ∧
      (extend_session [⟨"s", 1, 0, "c", none, none⟩] 5 "s").2 ≠
        [⟨"s", 1, 0, "c", none, none⟩]) ∧
    (extend_session [⟨"t", 1, 30, "c", none, none⟩] 0 "t").1 =
      some ⟨"t", 1, 30, "c", none, none⟩ := by
  decide

/-- C4 (amended): on a valid session, `extend_session` resets the expiry to
`now + SESSION_EXPIRE_MINUTES`, a strict increase exactly when the old expiry
is below `now + SESSION_EXPIRE_MINUTES`; on an unknown token the store is
unchanged; on a token naming an expired session the expired row is lazily
deleted (the one store change) and `none` is returned. -/
theorem extend_session_correct (db : List UserSession) (now : Nat)
    (sid : String) :
    (db.find? (fun t => t.id == sid) = none →
      extend_session db now sid = (none, db)) ∧
    (∀ s, db.find? (fun t => t.id == sid) = some s →
      (s.expires_at < now →
        extend_session db now sid =
          (none, db.eraseP (fun t => t.id == sid))) ∧
      (now ≤ s.expires_at →
        (extend_session db now sid).1 =
          some { s with expires_at := now + SESSION_EXPIRE_MINUTES } ∧
        ∀ s', (extend_session db now sid).1 = some s' →
          (s.expires_at < s'.expires_at ↔
            s.expires_at < now + SESSION_EXPIRE_MINUTES))) := by
  constructor
  · intro hfind
    simp [extend_session, get_session, hfind]
  · intro s hfind
    constructor
    · intro hexp
      have he : is_session_expired s.expires_at now = true := by
        simpa [is_session_expired] using hexp
      simp [extend_session, get_session, delete_session, hfind, he]
    · intro hval
      have he : is_session_expired s.expires_at now = false := by
        simp [is_session_expired]; omega
      refine ⟨by simp [extend_session, get_session, hfind, he], ?_⟩
      intro s' hs'
      simp [extend_session, get_session, hfind, he] at hs'
      subst hs'
      simp

/-- C4 witness: extending a concrete valid session at time 3 yields expiry
`3 + SESSION_EXPIRE_MINUTES`, and the increase from 10 is strict. -/
theorem extend_session_correct_witness :
    (extend_session [⟨"s", 1, 10, "c", none, none⟩] 3 "s").1 =
      some ⟨"s", 1, 3 + SESSION_EXPIRE_MINUTES, "c", none, none⟩ :=
  (((extend_session_correct [⟨"s", 1, 10, "c", none, none⟩] 3 "s").2
    ⟨"s", 1, 10, "c", none, none⟩ rfl).2 (by decide)).1

/-! ### C10 -/

/-- C10: extending a valid session changes only its expiry: the returned
session keeps the token, owner, CSRF token and client metadata; every other
row of the store survives unchanged, and every row of the new store is either
an old row or the rewritten session. -/
theorem extend_session_frame (db : List UserSession) (now : Nat)
    (sid : String) (s : UserSession)
    (hfind : db.find? (fun t => t.id == sid) = some s)
    (hval : now ≤ s.expires_at) :
    ∃ s', (extend_session db now sid).1 = some s' ∧
      s'.id = s.id ∧ s'.user_id = s.user_id ∧
      s'.csrf_token = s.csrf_token ∧ s'.user_agent = s.user_agent ∧
      s'.ip_address = s.ip_address ∧
      s'.expires_at = now + SESSION_EXPIRE_MINUTES ∧
      (∀ t ∈ db, t.id ≠ s.id → t ∈ (extend_session db now sid).2) ∧
      (∀ t ∈ (extend_session db now sid).2, t ∈ db ∨ t = s') := by
  have he : is_session_expired s.expires_at now = false := by
    simp [is_session_expired]; omega
  refine ⟨{ s with expires_at := now + SESSION_EXPIRE_MINUTES },
    by simp [extend_session, get_session, hfind, he],
    rfl, rfl, rfl, rfl, rfl, rfl, ?_, ?_⟩
  · intro t ht hne
    have hmap : (extend_session db now sid).2 =
        db.map (fun t => if t.id == s.id then
          { s with expires_at := now + SESSION_EXPIRE_MINUTES } else t) := by
      simp [extend_session, get_session, hfind, he]
    rw [hmap]
    have : (if t.id == s.id then
        { s with expires_at := now + SESSION_EXPIRE_MINUTES } else t) = t := by
      simp [hne]
    exact this ▸ List.mem_map_of_mem _ ht
  · intro t ht
    have hmap : (extend_session db now sid).2 =
        db.map (fun t => if t.id == s.id then
          { s with expires_at := now + SESSION_EXPIRE_MINUTES } else t) := by
      simp [extend_session, get_session, hfind, he]
    rw [hmap] at ht
    obtain ⟨a, ha, hat⟩ := List.mem_map.mp ht
    by_cases hid : a.id == s.id
    · right
      rw [if_pos hid] at hat
      exact hat.symm
    · left
      rw [if_neg hid] at hat
      exact hat ▸ ha

/-- C10 witness: a concrete two-session store; extending one leaves the other
untouched. -/
theorem extend_session_frame_witness :
    ∃ s', (extend_session [⟨"a", 1, 10, "ca", none, none⟩,
        ⟨"b", 2, 20, "cb", some "ua", some "ip"⟩] 3 "b").1 = some s' ∧
      s'.id = "b" ∧ s'.user_id = 2 ∧ s'.csrf_token = "cb" ∧
      s'.user_agent = some "ua" ∧ s'.ip_address = some "ip" ∧
      s'.expires_at = 3 + SESSION_EXPIRE_MINUTES ∧
      (∀ t ∈ [⟨"a", 1, 10, "ca", none, none⟩,
          ⟨"b", 2, 20, "cb", some "ua", some "ip"⟩],
        t.id ≠ "b" → t ∈ (extend_session [⟨"a", 1, 10, "ca", none, none⟩,
          ⟨"b", 2, 20, "cb", some "ua", some "ip"⟩] 3 "b").2) ∧
      (∀ t ∈ (extend_session [⟨"a", 1, 10, "ca", none, none⟩,
          ⟨"b", 2, 20, "cb", some "ua", some "ip"⟩] 3 "b").2,
        t ∈ [⟨"a", 1, 10, "ca", none, none⟩,
          ⟨"b", 2, 20, "cb", some "ua", some "ip"⟩] ∨ t = s') :=
  extend_session_frame [⟨"a", 1, 10, "ca", none, none⟩,
    ⟨"b", 2, 20, "cb", some "ua", some "ip"⟩] 3 "b"
    ⟨"b", 2, 20, "cb", some "ua", some "ip"⟩ rfl (by decide)

/-- Helper: a `find?` hit surviving a `filter` is still the first hit. -/
theorem find?_filter_of_hit {α : Type} (p q : α → Bool) (l : List α) (a : α)
    (hfind : l.find? p = some a) (hq : q a = true) :
    (l.filter q).find? p = some a := by
  induction l with
  | nil => simp at hfind
  | cons b l ih =>
    by_cases hp : p b
    · have hb : b = a := by
        rw [List.find?_cons_of_pos _ hp] at hfind
        exact Option.some.inj hfind
      subst hb
      rw [List.filter_cons_of_pos hq, List.find?_cons_of_pos _ hp]
    · rw [List.find?_cons_of_neg _ hp] at hfind
      by_cases hqb : q b
      · rw [List.filter_cons_of_pos hqb, List.find?_cons_of_neg _ hp]
        exact ih hfind
      · rw [List.filter_cons_of_neg (by simpa using hqb)]
        exact ih hfind

/-! ### C7 -/

/-- C7: `cleanup_expired_sessions` returns the number of rows past expiry and
deletes exactly those; every row not past expiry survives, counts add up to
the old size, and any session valid at sweep time is still retrievable by
`get_session` afterward. -/
theorem sweep_expired_correct (db : List UserSession) (now : Nat) :
    (cleanup_expired_sessions db now).1 =
      db.countP (fun s => decide (s.expires_at < now)) ∧
    (∀ s ∈ (cleanup_expired_sessions db now).2, ¬ s.expires_at < now) ∧
    (∀ s ∈ db, ¬ s.expires_at < now →
      s ∈ (cleanup_expired_sessions db now).2) ∧
    (cleanup_expired_sessions db now).1 +
      ((cleanup_expired_sessions db now).2).length = db.length ∧
    (∀ sid s, db.find? (fun t => t.id == sid) = some s →
      now ≤ s.expires_at →
      (get_session (cleanup_expired_sessions db now).2 now sid).1 =
        some s) := by
  refine ⟨?_, ?_, ?_, ?_, ?_⟩
  · simp [cleanup_expired_sessions, List.countP_eq_length_filter]
  · intro s hs
    simp [cleanup_expired_sessions, List.mem_filter] at hs
    omega
  · intro s hs hval
    simp [cleanup_expired_sessions, List.mem_filter]
    exact ⟨hs, by omega⟩
  · induction db with
    | nil => simp [cleanup_expired_sessions]
    | cons a l ih =>
      by_cases h : a.expires_at < now <;>
        simp [cleanup_expired_sessions, h] at ih ⊢ <;> omega
  · intro sid s hfind hval
    have hq : (!(decide (s.expires_at < now))) = true := by
      simp; omega
    have hf2 : ((cleanup_expired_sessions db now).2).find?
        (fun t => t.id == sid) = some s :=
      find?_filter_of_hit _ _ db s hfind hq
    have he : is_session_expired s.expires_at now = false := by
      simp [is_session_expired]; omega
    simp [get_session, hf2, he]

/-- C7 witness: the spec scenario — 3 expired and 2 valid sessions at time
100; the sweep reports 3, two rows remain, and a valid one is still
retrievable. -/
theorem sweep_expired_correct_witness :
    (cleanup_expired_sessions [⟨"e1", 1, 10, "c", none, none⟩,
        ⟨"v1", 1, 150, "c", none, none⟩, ⟨"e2", 2, 20, "c", none, none⟩,
        ⟨"v2", 2, 200, "c", none, none⟩,
        ⟨"e3", 3, 99, "c", none, none⟩] 100).1 = 3 ∧
    ((cleanup_expired_sessions [⟨"e1", 1, 10, "c", none, none⟩,
        ⟨"v1", 1, 150, "c", none, none⟩, ⟨"e2", 2, 20, "c", none, none⟩,
        ⟨"v2", 2, 200, "c", none, none⟩,
        ⟨"e3", 3, 99, "c", none, none⟩] 100).2).length = 2 ∧
    (get_session (cleanup_expired_sessions [⟨"e1", 1, 10, "c", none, none⟩,
        ⟨"v1", 1, 150, "c", none, none⟩, ⟨"e2", 2, 20, "c", none, none⟩,
        ⟨"v2", 2, 200, "c", none, none⟩,
        ⟨"e3", 3, 99, "c", none, none⟩] 100).2 100 "v1").1 =
      some ⟨"v1", 1, 150, "c", none, none⟩ := by
  refine ⟨?_, ?_, ?_⟩
  · have h := (sweep_expired_correct [⟨"e1", 1, 10, "c", none, none⟩,
      ⟨"v1", 1, 150, "c", none, none⟩, ⟨"e2", 2, 20, "c", none, none⟩,
      ⟨"v2", 2, 200, "c", none, none⟩,
      ⟨"e3", 3, 99, "c", none, none⟩] 100).1
    rw [h]; decide
  · decide
  · exact (sweep_expired_correct [⟨"e1", 1, 10, "c", none, none⟩,
      ⟨"v1", 1, 150, "c", none, none⟩, ⟨"e2", 2, 20, "c", none, none⟩,
      ⟨"v2", 2, 200, "c", none, none⟩,
      ⟨"e3", 3, 99, "c", none, none⟩] 100).2.2.2.2 "v1"
      ⟨"v1", 1, 150, "c", none, none⟩ rfl (by decide)

/-! ### C8 -/

/-- C8: `delete_user_sessions P` returns exactly the number of sessions P
held, and afterwards `get_session` on any token that named a session of P
returns `none` (token uniqueness is the store's primary-key invariant). -/
theorem logout_everywhere_correct (db : List UserSession) (uid : Nat)
    (now : Nat) (sid : String)
    (hnodup : (db.map (fun s => s.id)).Nodup) (s : UserSession)
    (hs : s ∈ db) (hsid : s.id = sid) (howner : s.user_id = uid) :
    (delete_user_sessions db uid).1 =
      db.countP (fun t => t.user_id == uid) ∧
    (get_session (delete_user_sessions db uid).2 now sid).1 = none := by
  constructor
  · simp [delete_user_sessions, List.countP_eq_length_filter]
  · have hall : ∀ t ∈ db, t.id = sid → t.user_id = uid := by
      intro t ht htid
      have : t = s := by
        have hinj := List.inj_on_of_nodup_map hnodup
        exact hinj ht hs (by rw [htid, hsid])
      rw [this, howner]
    have hnone : (delete_user_sessions db uid).2.find?
        (fun t => t.id == sid) = none := by
      rw [List.find?_eq_none]
      intro t ht
      simp [delete_user_sessions, List.mem_filter] at ht
      simp only [beq_iff_eq]
      intro heq
      exact ht.2 (hall t ht.1 heq)
    simp [get_session, hnone]

/-- C8 witness: a user with two sessions among three; revoking reports 2 and
one of the revoked tokens resolves to nothing. -/
theorem logout_everywhere_correct_witness :
    (delete_user_sessions [⟨"a", 7, 100, "c", none, none⟩,
        ⟨"b", 8, 100, "c", none, none⟩,
        ⟨"c", 7, 100, "c", none, none⟩] 7).1 =
      List.countP (fun (t : UserSession) => t.user_id == 7)
        [⟨"a", 7, 100, "c", none, none⟩, ⟨"b", 8, 100, "c", none, none⟩,
          ⟨"c", 7, 100, "c", none, none⟩] ∧
    (get_session (delete_user_sessions [⟨"a", 7, 100, "c", none, none⟩,
        ⟨"b", 8, 100, "c", none, none⟩,
        ⟨"c", 7, 100, "c", none, none⟩] 7).2 0 "a").1 = none :=
  logout_everywhere_correct [⟨"a", 7, 100, "c", none, none⟩,
    ⟨"b", 8, 100, "c", none, none⟩, ⟨"c", 7, 100, "c", none, none⟩] 7 0 "a"
    (by decide) ⟨"a", 7, 100, "c", none, none⟩ (by decide) rfl rfl

/-! ### C3 -/

/-- C3: with a session cookie present, the CSRF Guard (a) passes a
header-supplied token that the session store validates, even with no cookie
or body token (referer check disabled, as in development configuration);
(b) rejects a cookie-only token the store does not validate as forbidden
"Invalid CSRF token"; (c) rejects the absence of any token as forbidden
"CSRF token required". -/
theorem csrf_guard_token_rules (db : List UserSession) (now : Nat)
    (sid t : String) (rr : Bool) (rh : Option String) (ah : List String)
    (hsid : sid ≠ "") (ht : t ≠ "") :
    ((validate_csrf_token db now sid t).1 = true →
      validate_csrf_middleware db now (some sid) (some t) none none
        false rh ah = .passed) ∧
    ((validate_csrf_token db now sid t).1 = false →
      validate_csrf_middleware db now (some sid) none none (some t)
        rr rh ah = .invalidToken) ∧
    validate_csrf_middleware db now (some sid) none none none rr rh ah =
      .tokenRequired ∧
    (∀ c : Option String,
      validate_csrf_middleware db now (some sid) (some t) none c rr rh ah =
        validate_csrf_middleware db now (some sid) (some t) none none
          rr rh ah) := by
  refine ⟨?_, ?_, ?_, ?_⟩
  · intro hv
    simp [validate_csrf_middleware, truthy, hsid, ht, hv]
  · intro hv
    simp [validate_csrf_middleware, truthy, hsid, ht, hv]
  · simp [validate_csrf_middleware, truthy, hsid]
  · intro c
    simp [validate_csrf_middleware, truthy, hsid, ht]

/-- C3 witness: a concrete valid session with stored token "tok": the header
token "tok" passes without any cookie token, the cookie-only token "bad" is
rejected as invalid, no token at all is rejected as required, and a header
token makes the cookie token irrelevant. -/
theorem csrf_guard_token_rules_witness :
    (validate_csrf_middleware [⟨"s", 1, 100, "tok", none, none⟩] 0
      (some "s") (some "tok") none none false none [] = .passed) ∧
    (validate_csrf_middleware [⟨"s", 1, 100, "tok", none, none⟩] 0
      (some "s") none none (some "bad") true none [] = .invalidToken) ∧
    validate_csrf_middleware [⟨"s", 1, 100, "tok", none, none⟩] 0
      (some "s") none none none true none [] = .tokenRequired ∧
    validate_csrf_middleware [⟨"s", 1, 100, "tok", none, none⟩] 0
      (some "s") (some "tok") none (some "bad") true none [] =
      validate_csrf_middleware [⟨"s", 1, 100, "tok", none, none⟩] 0
        (some "s") (some "tok") none none true none [] := by
  have h := csrf_guard_token_rules [⟨"s", 1, 100, "tok", none, none⟩] 0
    "s" "tok" true none [] (by decide) (by decide)
  have h2 := csrf_guard_token_rules [⟨"s", 1, 100, "tok", none, none⟩] 0
    "s" "bad" true none [] (by decide) (by decide)
  exact ⟨h.1 (by decide), h2.2.1 (by decide), h.2.2.1,
    h.2.2.2 (some "bad")⟩

/-! ### Accessibility characterizations (helpers) -/

/-- The role-specific condition of the student authorization contract: form
teachers need an assignment row for the student's class; year heads and
admins need nothing beyond tenant match. -/
def accessRoleOk (assignments : List TeacherClassAssignment) (user : User)
    (st : Student) : Prop :=
  match user.role with
  | .FORM_TEACHER =>
    ∃ a ∈ assignments, a.teacher_id = user.id ∧ a.class_id = st.class_id
  | .YEAR_HEAD => True
  | .ADMIN => True

/-- Helper: membership in the assigned-class-ids subquery. -/
theorem mem_assigned_class_ids (assignments : List TeacherClassAssignment)
    (uid cid : Nat) :
    cid ∈ assigned_class_ids assignments uid ↔
    ∃ a ∈ assignments, a.teacher_id = uid ∧ a.class_id = cid := by
  simp only [assigned_class_ids, List.mem_map, List.mem_filter, beq_iff_eq]
  constructor
  · rintro ⟨a, ⟨ha, hta⟩, hca⟩
    exact ⟨a, ha, hta, hca⟩
  · rintro ⟨a, ha, hta, hca⟩
    exact ⟨a, ⟨ha, hta⟩, hca⟩

/-- Helper: membership in `get_accessible_student_ids` is existence of a
student row with that id, tenant match, and the role condition. -/
theorem mem_accessible_ids_iff (students : List Student)
    (assignments : List TeacherClassAssignment) (user : User) (sid : Nat) :
    sid ∈ get_accessible_student_ids students assignments user ↔
    ∃ st ∈ students, st.id = sid ∧ st.school_id = user.school_id ∧
      accessRoleOk assignments user st := by
  rcases user with ⟨uid, urole, uschool⟩
  cases urole <;>
    simp only [get_accessible_student_ids, accessRoleOk, List.mem_map,
      List.mem_filter, Bool.and_eq_true, beq_iff_eq, and_true]
  · constructor
    · rintro ⟨st, ⟨hst, hsc, hcont⟩, hid⟩
      have := (mem_assigned_class_ids assignments uid st.class_id).mp
        (by simpa using hcont)
      exact ⟨st, hst, hid, hsc, this⟩
    · rintro ⟨st, hst, hid, hsc, ha⟩
      refine ⟨st, ⟨hst, hsc, ?_⟩, hid⟩
      simpa using (mem_assigned_class_ids assignments uid st.class_id).mpr ha
  · constructor
    · rintro ⟨st, ⟨hst, hsc⟩, hid⟩
      exact ⟨st, hst, hid, hsc⟩
    · rintro ⟨st, hst, hid, hsc⟩
      exact ⟨st, ⟨hst, hsc⟩, hid⟩
  · constructor
    · rintro ⟨st, ⟨hst, hsc⟩, hid⟩
      exact ⟨st, hst, hid, hsc⟩
    · rintro ⟨st, hst, hid, hsc⟩
      exact ⟨st, ⟨hst, hsc⟩, hid⟩

/-- Helper: with unique ids, the first row found by id is the member row. -/
theorem find_student_by_id_unique (students : List Student) (sid : Nat)
    (hnodup : (students.map (fun s => s.id)).Nodup) (st : Student)
    (hmem : st ∈ students) (hid : st.id = sid) :
    students.find? (fun s => s.id == sid) = some st := by
  induction students with
  | nil => simp at hmem
  | cons a l ih =>
    simp only [List.map_cons, List.nodup_cons] at hnodup
    rcases List.mem_cons.mp hmem with h | h
    · subst h
      rw [List.find?_cons_of_pos _ (by simp [hid])]
    · by_cases hp : a.id = sid
      · exact absurd (by rw [hp, ← hid]; exact List.mem_map_of_mem _ h)
          hnodup.1
      · rw [List.find?_cons_of_neg _ (by simp [hp])]
        exact ih hnodup.2 h

/-- Helper: `can_access_student` is that same existence condition, provided
student ids are unique (the table's primary key). -/
theorem can_access_student_iff (students : List Student)
    (assignments : List TeacherClassAssignment) (user : User) (sid : Nat)
    (hnodup : (students.map (fun s => s.id)).Nodup) :
    can_access_student students assignments sid user = true ↔
    ∃ st ∈ students, st.id = sid ∧ st.school_id = user.school_id ∧
      accessRoleOk assignments user st := by
  rcases user with ⟨uid, urole, uschool⟩
  unfold can_access_student get_student_by_id
  constructor
  · intro h
    cases hf : students.find? (fun s => s.id == sid) with
    | none => rw [hf] at h; simp at h
    | some st =>
      rw [hf] at h
      have hmem := List.mem_of_find?_eq_some hf
      have hid : st.id = sid := by simpa using List.find?_some hf
      by_cases hs : st.school_id = uschool
      · refine ⟨st, hmem, hid, hs, ?_⟩
        cases urole
        · simp only [accessRoleOk]
          cases ha : assignments.any (fun a => a.teacher_id == uid &&
              a.class_id == st.class_id) with
          | false => simp [hs, ha] at h
          | true =>
            have := List.any_eq_true.mp ha
            obtain ⟨a, haa, hp⟩ := this
            simp only [Bool.and_eq_true, beq_iff_eq] at hp
            exact ⟨a, haa, hp.1, hp.2⟩
        · simp [accessRoleOk]
        · simp [accessRoleOk]
      · simp [bne_iff_ne, hs] at h
  · rintro ⟨st, hmem, hid, hs, hrole⟩
    have hf := find_student_by_id_unique students sid hnodup st hmem hid
    rw [hf]
    cases urole
    · simp only [accessRoleOk] at hrole
      obtain ⟨a, haa, hta, hca⟩ := hrole
      have ha : assignments.any (fun a => a.teacher_id == uid &&
          a.class_id == st.class_id) = true := by
        refine List.any_eq_true.mpr ⟨a, haa, ?_⟩
        simp [hta, hca]
      simp [hs, ha]
    · simp [hs]
    · simp [hs]

/-! ### C9 -/

/-- C9: the two faces of the authorization contract agree:
`can_access_student` is true exactly when the id lies in
`get_accessible_student_ids` (student ids unique, the table's primary
key). -/
theorem access_faces_agree (students : List Student)
    (assignments : List TeacherClassAssignment) (user : User) (sid : Nat)
    (hnodup : (students.map (fun s => s.id)).Nodup) :
    can_access_student students assignments sid user = true ↔
    sid ∈ get_accessible_student_ids students assignments user :=
  (can_access_student_iff students assignments user sid hnodup).trans
    (mem_accessible_ids_iff students assignments user sid).symm

/-- C9 witness: a concrete teacher assigned to class 5 containing student 1:
both faces agree on student 1. -/
theorem access_faces_agree_witness :
    can_access_student [⟨1, 1, 5⟩] [⟨9, 5⟩] 1
      ⟨9, UserRole.FORM_TEACHER, 1⟩ = true ↔
    1 ∈ get_accessible_student_ids [⟨1, 1, 5⟩] [⟨9, 5⟩]
      ⟨9, UserRole.FORM_TEACHER, 1⟩ :=
  access_faces_agree [⟨1, 1, 5⟩] [⟨9, 5⟩] ⟨9, UserRole.FORM_TEACHER, 1⟩ 1
    (by decide)

/-! ### C6 -/

/-- C6 counterexample: adding an assignment row for a class with no students
leaves the accessible set unchanged (so it does not strictly grow), and
removing that row leaves it unchanged as well (so removal does not strictly
shrink). -/
theorem assignment_strict_growth_counterexample :
    get_accessible_student_ids [⟨1, 1, 1⟩] [⟨7, 1⟩]
        ⟨7, UserRole.FORM_TEACHER, 1⟩ =
      get_accessible_student_ids [⟨1, 1, 1⟩] ([⟨7, 1⟩] ++ [⟨7, 2⟩])
        ⟨7, UserRole.FORM_TEACHER, 1⟩ ∧
    get_accessible_student_ids [⟨1, 1, 1⟩]
        (([⟨7, 1⟩, ⟨7, 2⟩] : List TeacherClassAssignment).erase ⟨7, 2⟩)
        ⟨7, UserRole.FORM_TEACHER, 1⟩ =
      get_accessible_student_ids [⟨1, 1, 1⟩] [⟨7, 1⟩, ⟨7, 2⟩]
        ⟨7, UserRole.FORM_TEACHER, 1⟩ := by
  decide

/-- C6 (amended): for a form teacher whose assignment rows name exactly unit
C, the accessible set is exactly the tenant's students of class C; adding an
assignment row never removes access and removing one never adds access
(monotone, but not strictly in general); adding a row for the teacher does
strictly grow the set whenever the newly assigned class holds a tenant
student that was not previously accessible. -/
theorem assignment_scoped_accessible_set (students : List Student)
    (assignments : List TeacherClassAssignment) (user : User) (C : Nat)
    (a : TeacherClassAssignment) (hrole : user.role = .FORM_TEACHER) :
    ((∀ t ∈ assignments, t.teacher_id = user.id → t.class_id = C) →
      (∃ t ∈ assignments, t.teacher_id = user.id) →
      ∀ x, x ∈ get_accessible_student_ids students assignments user ↔
        ∃ st ∈ students, st.id = x ∧ st.school_id = user.school_id ∧
          st.class_id = C) ∧
    (∀ x, x ∈ get_accessible_student_ids students assignments user →
      x ∈ get_accessible_student_ids students (assignments ++ [a]) user) ∧
    (∀ x, x ∈ get_accessible_student_ids students (assignments.erase a)
        user →
      x ∈ get_accessible_student_ids students assignments user) ∧
    (a.teacher_id = user.id →
      (∃ st ∈ students, st.school_id = user.school_id ∧
        st.class_id = a.class_id ∧
        st.id ∉ get_accessible_student_ids students assignments user) →
      ∃ x, x ∈ get_accessible_student_ids students (assignments ++ [a])
          user ∧
        x ∉ get_accessible_student_ids students assignments user) := by
  rcases user with ⟨uid, urole, uschool⟩
  simp only at hrole
  subst hrole
  refine ⟨?_, ?_, ?_, ?_⟩
  · intro honly hsome x
    rw [mem_accessible_ids_iff]
    constructor
    · rintro ⟨st, hst, hid, hsc, hrk⟩
      simp only [accessRoleOk] at hrk
      obtain ⟨t, htmem, htu, htc⟩ := hrk
      exact ⟨st, hst, hid, hsc, htc ▸ honly t htmem htu⟩
    · rintro ⟨st, hst, hid, hsc, hcl⟩
      obtain ⟨t, htmem, htu⟩ := hsome
      refine ⟨st, hst, hid, hsc, ?_⟩
      simp only [accessRoleOk]
      exact ⟨t, htmem, htu, by rw [honly t htmem htu, hcl]⟩
  · intro x hx
    rw [mem_accessible_ids_iff] at hx ⊢
    obtain ⟨st, hst, hid, hsc, hrk⟩ := hx
    refine ⟨st, hst, hid, hsc, ?_⟩
    simp only [accessRoleOk] at hrk ⊢
    obtain ⟨t, htmem, ht⟩ := hrk
    exact ⟨t, List.mem_append_left _ htmem, ht⟩
  · intro x hx
    rw [mem_accessible_ids_iff] at hx ⊢
    obtain ⟨st, hst, hid, hsc, hrk⟩ := hx
    refine ⟨st, hst, hid, hsc, ?_⟩
    simp only [accessRoleOk] at hrk ⊢
    obtain ⟨t, htmem, ht⟩ := hrk
    exact ⟨t, List.mem_of_mem_erase htmem, ht⟩
  · intro hta hex
    obtain ⟨st, hst, hsc, hcl, hnot⟩ := hex
    refine ⟨st.id, ?_, hnot⟩
    rw [mem_accessible_ids_iff]
    refine ⟨st, hst, rfl, hsc, ?_⟩
    simp only [accessRoleOk]
    exact ⟨a, List.mem_append_right _ (List.mem_singleton_self a), hta,
      hcl.symm⟩

/-- C6 witness: class 1 holds student 1; the teacher assigned exactly to
class 1 sees exactly \x7b1\x7d, and gaining class 2 (which holds student 2)
strictly grows the set. -/
theorem assignment_scoped_accessible_set_witness :
    (∀ x, x ∈ get_accessible_student_ids [⟨1, 1, 1⟩, ⟨2, 1, 2⟩] [⟨7, 1⟩]
        ⟨7, UserRole.FORM_TEACHER, 1⟩ ↔
      ∃ st ∈ [(⟨1, 1, 1⟩ : Student), ⟨2, 1, 2⟩], st.id = x ∧
        st.school_id = 1 ∧ st.class_id = 1) ∧
    (∃ x, x ∈ get_accessible_student_ids [⟨1, 1, 1⟩, ⟨2, 1, 2⟩]
        ([⟨7, 1⟩] ++ [⟨7, 2⟩]) ⟨7, UserRole.FORM_TEACHER, 1⟩ ∧
      x ∉ get_accessible_student_ids [⟨1, 1, 1⟩, ⟨2, 1, 2⟩] [⟨7, 1⟩]
        ⟨7, UserRole.FORM_TEACHER, 1⟩) := by
  have h := assignment_scoped_accessible_set [⟨1, 1, 1⟩, ⟨2, 1, 2⟩]
    [⟨7, 1⟩] ⟨7, UserRole.FORM_TEACHER, 1⟩ 1 ⟨7, 2⟩ rfl
  exact ⟨h.1 (by decide) (by decide), h.2.2.2 rfl (by decide)⟩

/-! ### C5 -/

/-- C5 counterexample: on the grade-update path, a request for a student id
that does not exist at all is answered with the 403 forbidden response
"Permission denied" (the permission check fails first), not with a
not-found-class response as the claim states. -/
theorem unauthorized_vs_missing_counterexample :
    update_student_grades_endpoint [⟨1, 1, 1⟩] [] [⟨1, 1⟩] [] 2 1
      [(1, 50)] ⟨9, UserRole.ADMIN, 1⟩ = .forbidden "Permission denied" ∧
    update_student_grades_endpoint [⟨1, 1, 1⟩] [] [⟨1, 1⟩] [] 2 1
      [(1, 50)] ⟨9, UserRole.ADMIN, 1⟩ ≠ .notFound "Student not found" := by
  decide

/-- C5 (amended): "does not exist" and "exists but the tenant/role/assignment
check fails" are indistinguishable on both cited paths, each path collapsing
the two cases to one fixed response — the student read to the 404
"Student not found or access denied", the grade update to the 403
"Permission denied" (a forbidden-class, not not-found-class, response). -/
theorem unauthorized_vs_missing_collapse (students : List Student)
    (assignments : List TeacherClassAssignment) (terms : List Term)
    (grades : List Grade) (user : User)
    (sid_missing sid_denied term_id : Nat)
    (grades_data : List (Nat × Int))
    (hmissing : ∀ st ∈ students, st.id ≠ sid_missing)
    (hdenied : can_access_student students assignments sid_denied user =
      false) :
    get_student_endpoint students assignments sid_missing user =
      .notFound "Student not found or access denied" ∧
    get_student_endpoint students assignments sid_denied user =
      .notFound "Student not found or access denied" ∧
    update_student_grades_endpoint students assignments terms grades
      sid_missing term_id grades_data user =
      .forbidden "Permission denied" ∧
    update_student_grades_endpoint students assignments terms grades
      sid_denied term_id grades_data user =
      .forbidden "Permission denied" := by
  have hfind : students.find? (fun s => s.id == sid_missing) = none := by
    rw [List.find?_eq_none]
    intro st hst
    simpa using hmissing st hst
  have hca : can_access_student students assignments sid_missing user =
      false := by
    simp [can_access_student, get_student_by_id, hfind]
  have hmiss_edit : can_edit_student_grades students assignments user
      sid_missing = false := by
    rw [can_edit_eq_can_access]; exact hca
  have hden_edit : can_edit_student_grades students assignments user
      sid_denied = false := by
    rw [can_edit_eq_can_access]; exact hdenied
  have hden_get : get_student_by_id students assignments sid_denied user =
      none := by
    simpa [can_access_student] using hdenied
  refine ⟨?_, ?_, ?_, ?_⟩
  · simp [get_student_endpoint, get_student_by_id, hfind]
  · simp [get_student_endpoint, hden_get]
  · simp [update_student_grades_endpoint, update_student_grades, hmiss_edit]
  · simp [update_student_grades_endpoint, update_student_grades, hden_edit]

/-- C5 witness: school 1 holds student 1; an unassigned form teacher asking
for existing student 1 and missing student 2 receives the identical 404 on
the read path and the identical 403 on the update path. -/
theorem unauthorized_vs_missing_collapse_witness :
    get_student_endpoint [⟨1, 1, 1⟩] [] 2 ⟨7, UserRole.FORM_TEACHER, 1⟩ =
      .notFound "Student not found or access denied" ∧
    get_student_endpoint [⟨1, 1, 1⟩] [] 1 ⟨7, UserRole.FORM_TEACHER, 1⟩ =
      .notFound "Student not found or access denied" ∧
    update_student_grades_endpoint [⟨1, 1, 1⟩] [] [⟨1, 1⟩] [] 2 1
      [(1, 50)] ⟨7, UserRole.FORM_TEACHER, 1⟩ =
      .forbidden "Permission denied" ∧
    update_student_grades_endpoint [⟨1, 1, 1⟩] [] [⟨1, 1⟩] [] 1 1
      [(1, 50)] ⟨7, UserRole.FORM_TEACHER, 1⟩ =
      .forbidden "Permission denied" :=
  unauthorized_vs_missing_collapse [⟨1, 1, 1⟩] [] [⟨1, 1⟩] []
    ⟨7, UserRole.FORM_TEACHER, 1⟩ 2 1 1 [(1, 50)] (by decide) (by decide)

end ReportCard
